import Mathlib

/-!
# megatree: a shallow embedding of `src/megatree.c`

The C program keeps a tree of `mt_branch` records, two process-wide error
variables and a handful of operations on them.  The embedding below threads
the process-wide variables explicitly (`Globals`), represents a pointer that
owns its pointee by `Option` (`none` is `NULL`), and gives every operation an
`Outcome`: it returns to its caller, it ends the process through `exit`, or it
runs into undefined behaviour (a read through a `NULL` pointer, a store into
a string literal, a library call with arguments it cannot take).

Memory allocation (`strdup`, `calloc`) is assumed to succeed.  `int` is taken
as 32 bits wide and `size_t` as 64 bits wide.
-/

set_option autoImplicit false

namespace Megatree

/-! ## C strings -/

/-- A `char*` that is not `NULL`: the characters stored from the pointed-to
address on.  A reader stops at the first NUL character; the end of the list
stands for the terminating NUL. -/
abbrev CStr := List Char

/-- The NUL character. -/
def NUL : Char := Char.ofNat 0

/-- The expression `s[i]`. -/
def char_at (s : CStr) (i : Nat) : Char := s.getD i NUL

/-- The C string held in a buffer: the characters before the first NUL. -/
def cstr (s : CStr) : CStr := s.takeWhile (fun c => c != NUL)

/-- The library function `strlen`. -/
def strlen (s : CStr) : Nat := (cstr s).length

/-- The library function `strdup` (the allocation succeeds): a fresh copy of
the C string. -/
def strdup (s : CStr) : CStr := cstr s

/-- A buffer is the plain content of a C string when no NUL occurs in it. -/
def NulFree (s : CStr) : Prop := ∀ c ∈ s, c ≠ NUL

instance (s : CStr) : Decidable (NulFree s) := by
  unfold NulFree; infer_instance

/-! ## Data model -/

/-- A pointer that the tree does not own (`parent`, `last_child`, `prev`):
only its value matters, `0` is `NULL`. -/
abbrev Ptr := Nat

/-- The record `struct mt_branch`, with the type of the owned child list left
open so that the list can be declared after it. -/
structure mt_branch_of (L : Type) where
  parent : Ptr
  first_child : L
  last_child : Ptr
  id : Nat
  label : Option CStr
  data_type : Option CStr
  data_size : Nat
  data : Option (List Nat)

/-- A value of type `mt_list*`: `NULL`, or a `struct mt_list` cell with its
`prev`, `next` and `item` fields. -/
inductive mt_list where
  | null
  | node (prev : Ptr) (next : mt_list) (item : Option (mt_branch_of mt_list))

/-- The record `struct mt_branch`. -/
abbrev mt_branch := mt_branch_of mt_list

/-- The process-wide variables of `megatree.c`. -/
structure Globals where
  MT_ERRORS_ARE_FATAL : Int
  MT_ERROR_FLAG : Int
  MT_CURRENT_NUM_BRANCHES : Nat
  MT_MAX_ID : Nat
deriving DecidableEq, Repr

/-- How a call ends. -/
inductive Outcome (α : Type) where
  /-- the call returns `val`, leaving the process-wide variables as `g` -/
  | ret (val : α) (g : Globals)
  /-- the process ended in `exit` -/
  | exited
  /-- undefined behaviour: a `NULL` pointer or memory before a buffer was
  read, memory that may not be written was written, a library function got
  arguments it cannot take, or an `int` computation left the range of `int` -/
  | fault
  /-- the loop budget of the model was used up (never the case, see below) -/
  | nofuel

/-- Sequencing of two steps. -/
def Outcome.bind {α β : Type} (o : Outcome α) (f : α → Globals → Outcome β) : Outcome β :=
  match o with
  | .ret v g => f v g
  | .exited => .exited
  | .fault => .fault
  | .nofuel => .nofuel

/-! ## Error handling -/

/-- `__mt_check_error_flag`: returns the flag and clears it. -/
def __mt_check_error_flag (g : Globals) : Outcome Int :=
  let temp_error_flag := g.MT_ERROR_FLAG
  .ret temp_error_flag { g with MT_ERROR_FLAG := 0 }

/-- The call `vprintf("*** Megatree error: %s\n", format, args)` of line 89.
`vprintf` takes a format and a `va_list`; here the message `format` stands
where the `va_list` belongs and the `va_list` is a surplus third argument, so
`vprintf` fetches the argument of `%s` through the characters of the message:
undefined behaviour. -/
def mt_error_vprintf (_g : Globals) : Outcome Unit := .fault

/-- `mt_error`: the `vprintf` call, then the end of the process when errors
are fatal and the setting of the flag otherwise. -/
def mt_error (g : Globals) : Outcome Unit :=
  (mt_error_vprintf g).bind fun _ g =>
  if g.MT_ERRORS_ARE_FATAL ≠ 0 then .exited
  else .ret () { g with MT_ERROR_FLAG := 1 }

/-- The statement `if (cond) mt_error(...);`. -/
def error_if (cond : Bool) (g : Globals) : Outcome Unit :=
  if cond then mt_error g else .ret () g

/-! ## Data validation -/

/-- `mt_check_label_valid`: walks the string up to its NUL and answers 0 at
the first space, slash or brace, 1 when there is none. -/
def mt_check_label_valid : CStr → Int
  | [] => 1
  | c :: rest =>
    if c = NUL then 1
    else if c = ' ' ∨ c = '/' ∨ c = '\x7b' ∨ c = '\x7d' then 0
    else mt_check_label_valid rest

/-- The expression `mt_check_label_valid` as it stands in the two setters:
the function is named, not called, so the value tested is its address, and
the address of a function is never `NULL`. -/
def mt_check_label_valid_address : Ptr := 1

/-! ## Edit -/

/-- `mt_set_label`.  The result pairs the returned `char*` with the branch
behind `branch` as the call leaves it. -/
def mt_set_label (g : Globals) (branch : Option mt_branch) (new_label : Option CStr) :
    Outcome (Option CStr × Option mt_branch) :=
  (error_if new_label.isNone g).bind fun _ g =>
  match new_label with
  | none => .fault                                   -- `new_label[0]`
  | some s =>
    (error_if (char_at s 0 == NUL) g).bind fun _ g =>
    (error_if branch.isNone g).bind fun _ g =>
    (error_if (mt_check_label_valid_address == 0) g).bind fun _ g =>
    (__mt_check_error_flag g).bind fun flag g =>
    if flag ≠ 0 then .ret (none, branch) g
    else
      match branch with
      | none => .fault                               -- `branch->label`
      | some b =>
        let b := { b with label := some (strdup s) }
        .ret (b.label, some b) g

/-- `mt_set_data_type`.  The result pairs the returned `char*` with the branch
behind `branch` as the call leaves it. -/
def mt_set_data_type (g : Globals) (branch : Option mt_branch) (data_type : Option CStr) :
    Outcome (Option CStr × Option mt_branch) :=
  (error_if branch.isNone g).bind fun _ g =>
  (error_if (mt_check_label_valid_address == 0) g).bind fun _ g =>
  (__mt_check_error_flag g).bind fun flag g =>
  if flag ≠ 0 then .ret (none, branch) g
  else
    match branch with
    | none => .fault                                 -- `branch->data_type`
    | some b =>
      match data_type with
      | none => .fault                               -- `strdup(NULL)`
      | some s =>
        let b := { b with data_type := some (strdup s) }
        .ret (b.data_type, some b) g

/-! ## Library functions used by the path lookup -/

/-- The library function `isspace` in the C locale. -/
def isspace (c : Char) : Bool :=
  c == ' ' || c == '\t' || c == '\n' || c == '\x0b' || c == '\x0c' || c == '\r'

/-- The digit loop of `atoi`: stops at the first character that is not a
decimal digit (the terminating NUL included). -/
def atoi_digits : Int → CStr → Int
  | acc, [] => acc
  | acc, c :: rest =>
    if '0' ≤ c ∧ c ≤ '9' then atoi_digits (acc * 10 + (c.toNat - 48 : Nat)) rest else acc

/-- The library function `atoi`: optional white space, an optional sign, then
decimal digits; 0 when no digit is found. -/
def atoi (s : CStr) : Int :=
  match s.dropWhile isspace with
  | '-' :: rest => - atoi_digits 0 rest
  | '+' :: rest => atoi_digits 0 rest
  | t => atoi_digits 0 t

/-- The library function `strtok`, started at the buffer `s` (for the call
`strtok(NULL, delim)`, `s` is the position the previous call saved).  `none`
is the `NULL` result; otherwise the token and the position saved for the next
call. -/
def strtok (s : CStr) (delim : List Char) : Option (CStr × CStr) :=
  let s1 := s.dropWhile (fun c => c != NUL && delim.contains c)
  if char_at s1 0 == NUL then none
  else
    let tok := s1.takeWhile (fun c => c != NUL && !delim.contains c)
    let e := s1.dropWhile (fun c => c != NUL && !delim.contains c)
    if char_at e 0 == NUL then some (tok, e) else some (tok, e.tail)

/-- Whether the call of `strtok` started at `s` stores into the buffer: it
overwrites the delimiter that follows the token with NUL, and stores nothing
when the token runs up to the end of the string or no token is found. -/
def strtok_stores (s : CStr) (delim : List Char) : Bool :=
  let s1 := s.dropWhile (fun c => c != NUL && delim.contains c)
  if char_at s1 0 == NUL then false
  else
    let e := s1.dropWhile (fun c => c != NUL && !delim.contains c)
    !(char_at e 0 == NUL)

/-- The part of the buffer between the start `s` of a `strtok` call and the
position the call saves, as the call leaves it: the delimiters skipped, the
token, and the NUL stored over the delimiter after it, if there is one. -/
def strtok_passed (s : CStr) (delim : List Char) : CStr :=
  let skipped := s.takeWhile (fun c => c != NUL && delim.contains c)
  let s1 := s.dropWhile (fun c => c != NUL && delim.contains c)
  if char_at s1 0 == NUL then skipped
  else
    let tok := s1.takeWhile (fun c => c != NUL && !delim.contains c)
    let e := s1.dropWhile (fun c => c != NUL && !delim.contains c)
    if char_at e 0 == NUL then skipped ++ tok else skipped ++ tok ++ [NUL]

/-! ## Search -/

/-- The memory behind a `char*` argument that the callee cuts up with
`strtok`: its characters, and whether it may be written (a string literal may
not). -/
structure Buffer where
  chars : CStr
  writable : Bool

/-- The body of the `for` loop of `mt_get_by_path`, run on one token: it
computes `starts_with`, `ends_with` and `id_to_find`; every block that would
look for a child is empty, so `current_branch` is handed on as it came. -/
def mt_get_by_path_body (g : Globals) (current_branch : Option mt_branch) (label : CStr) :
    Outcome (Option mt_branch) :=
  let starts_with := char_at label 0 == '\x7b'
  let i := strlen label                              -- `while(label[i] != 0) { i++; }`
  if i = 0 then .fault                               -- `label[i-1]` with `i == 0`
  else
    let ends_with := char_at label (i - 1) == '\x7d'
    if starts_with && ends_with then
      let id_to_find : Int := atoi label % 2 ^ 64    -- `size_t id_to_find = atoi(label)`
      if id_to_find ≠ 0 then .ret current_branch g   -- `{ }`
      else .ret current_branch g
    else .ret current_branch g                       -- `else { }`

/-- The `for` loop of `mt_get_by_path`, entered at a call of `strtok`: `s` is
the position the call starts at and `delim` its delimiters, `done` the part of
the path before `s` as the earlier calls left it, `writable` whether the path
may be written.  The call of `strtok` stores a NUL over the delimiter that
follows its token: undefined behaviour when the path may not be written.  The
loop ends when `strtok` returns `NULL`; the result pairs `current_branch` with
the characters of the path as the loop leaves them. -/
def mt_get_by_path_loop (fuel : Nat) (g : Globals) (writable : Bool) (done : CStr)
    (current_branch : Option mt_branch) (s : CStr) (delim : List Char) :
    Outcome (Option mt_branch × CStr) :=
  match strtok s delim with
  | none => .ret (current_branch, done ++ s) g
  | some (label, saved) =>
    if strtok_stores s delim && !writable then .fault
    else
      match fuel with
      | 0 => .nofuel
      | fuel + 1 =>
        (mt_get_by_path_body g current_branch label).bind fun current_branch g =>
          mt_get_by_path_loop fuel g writable (done ++ strtok_passed s delim) current_branch
            saved ['/']

/-- `mt_get_by_path`: `NULL` for a `NULL` path; otherwise the first token is
cut at spaces, the following ones at slashes, and `current_branch`, which
starts as `root`, is returned after the loop.  The result pairs the returned
pointer with the path as the call leaves it.  The loop budget is one more
than the length of the path, and each token uses up at least one character. -/
def mt_get_by_path (g : Globals) (root : Option mt_branch) (path : Option Buffer) :
    Outcome (Option mt_branch × Option Buffer) :=
  match path with
  | none => .ret (none, none) g
  | some p =>
    let current_branch := root
    (mt_get_by_path_loop (p.chars.length + 1) g p.writable [] current_branch p.chars [' ']).bind
      fun r g => .ret (r.1, some { p with chars := r.2 }) g

/-- `mt_check_path_exists`; the result pairs the returned `int` with the path
as the call leaves it. -/
def mt_check_path_exists (g : Globals) (root : Option mt_branch) (path : Option Buffer) :
    Outcome (Int × Option Buffer) :=
  (mt_get_by_path g root path).bind fun r g =>
    if r.1.isSome then .ret (1, r.2) g else .ret (0, r.2) g

/-- The tokens that the `for` loop of `mt_get_by_path` hands to its body, in
order, when the path may be written: the calls of `strtok` alone, started at
`s` with the delimiters `delim` and continued with a slash. -/
def mt_get_by_path_tokens : Nat → CStr → List Char → List CStr
  | 0, _, _ => []
  | fuel + 1, s, delim =>
    match strtok s delim with
    | none => []
    | some (label, saved) => label :: mt_get_by_path_tokens fuel saved ['/']

/-! ## Reading the tree (used to state what a lookup should find) -/

/-- The `item` pointers of a child list, in list order. -/
def mt_list.items : mt_list → List (Option mt_branch)
  | .null => []
  | .node _ next item => item :: next.items

/-- The direct children of a branch, in child order. -/
def children (b : mt_branch) : List mt_branch :=
  b.first_child.items.filterMap id

/-- The first direct child whose label is the string `seg`. -/
def first_child_with_label (b : mt_branch) (seg : CStr) : Option mt_branch :=
  (children b).find? (fun c => c.label == some seg)

/-- The first direct child whose id is `n`. -/
def first_child_with_id (b : mt_branch) (n : Nat) : Option mt_branch :=
  (children b).find? (fun c => c.id == n)

/-! ## Integer types -/

/-- The smallest value of `int` (32 bits). -/
def INT_MIN : Int := -2 ^ 31

/-- The largest value of `int` (32 bits). -/
def INT_MAX : Int := 2 ^ 31 - 1

/-- Conversion of an integer value to `int`: 32 bits, two's complement. -/
def to_int (n : Int) : Int := (n + 2 ^ 31) % 2 ^ 32 - 2 ^ 31

/-- Conversion of an integer value to `size_t`: 64 bits, unsigned. -/
def to_size_t (n : Int) : Nat := (n % 2 ^ 64).toNat

/-- The two statements `int new_depth = max_depth;` and
`if(max_depth != -1) new_depth = max_depth - 1;` of both traversals; `none`
when the subtraction leaves the range of `int` (undefined in C). -/
def new_depth (max_depth : Int) : Option Int :=
  if max_depth ≠ -1 then
    if max_depth - 1 < INT_MIN then none else some (max_depth - 1)
  else some max_depth

/-! ## Housekeeping -/

mutual
/-- `mt_find_max_id`. -/
def mt_find_max_id (g : Globals) (root : Option mt_branch) (max_id : Nat) (max_depth : Int) :
    Outcome Nat :=
  if max_depth = 0 then .ret max_id g
  else
    match root with
    | none => .fault                                 -- `root->id`
    | some r =>
      let max_id := if r.id > max_id then r.id else max_id
      mt_find_max_id_walk g r.first_child max_id max_depth
/-- The child walk of `mt_find_max_id`, entered where `list_position` has
just been assigned: `this_child = list_position->item` is read, then the
`while` condition is tested and the body run. -/
def mt_find_max_id_walk (g : Globals) (list_position : mt_list) (max_id : Nat)
    (max_depth : Int) : Outcome Nat :=
  match list_position with
  | .null => .fault                                  -- `list_position->item`
  | .node _ next this_child =>
    match this_child with
    | none => .ret max_id g                          -- the loop ends, `return max_id`
    | some c =>
      match new_depth max_depth with
      | none => .fault
      | some d =>
        (mt_find_max_id g (some c) max_id d).bind fun max_id g =>
          mt_find_max_id_walk g next max_id max_depth
end

/-- `mt_update_max_id`. -/
def mt_update_max_id (g : Globals) (root : Option mt_branch) : Outcome Unit :=
  (mt_find_max_id g root 0 (-1)).bind fun found g =>
    .ret () { g with MT_MAX_ID := found }

/-- `mt_check_is_root`. -/
def mt_check_is_root (g : Globals) (branch : Option mt_branch) : Outcome Int :=
  match branch with
  | none => .fault                                   -- `branch->parent`
  | some b => if b.parent = 0 then .ret 1 g else .ret 0 g

/-! ## Get branches -/

/-- `mt_get_parent`. -/
def mt_get_parent (g : Globals) (branch : Option mt_branch) : Outcome Ptr :=
  (error_if branch.isNone g).bind fun _ g =>
  (__mt_check_error_flag g).bind fun flag g =>
  if flag ≠ 0 then .ret 0 g
  else
    match branch with
    | none => .fault                                 -- `branch->parent`
    | some b => .ret b.parent g

mutual
/-- `mt_get_num_descendants`: the accumulator is a `size_t`, the value
returned an `int`. -/
def mt_get_num_descendants (g : Globals) (branch : Option mt_branch) (num_descendants : Nat)
    (max_depth : Int) : Outcome Int :=
  if max_depth = 0 then .ret (to_int num_descendants) g
  else
    match branch with
    | none => .fault                                 -- `branch->first_child`
    | some b => mt_get_num_descendants_walk g b.first_child num_descendants max_depth
/-- The child walk of `mt_get_num_descendants`, entered where `list_position`
has just been assigned: `this_child = list_position->item` is read, then the
`while` condition is tested and the body run. -/
def mt_get_num_descendants_walk (g : Globals) (list_position : mt_list)
    (num_descendants : Nat) (max_depth : Int) : Outcome Int :=
  match list_position with
  | .null => .fault                                  -- `list_position->item`
  | .node _ next this_child =>
    match this_child with
    | none => .ret (to_int num_descendants) g        -- the loop ends, `return num_descendants`
    | some c =>
      match new_depth max_depth with
      | none => .fault
      | some d =>
        let num_descendants := (num_descendants + 1) % 2 ^ 64
        (mt_get_num_descendants g (some c) num_descendants d).bind fun r g =>
          mt_get_num_descendants_walk g next (to_size_t r) max_depth
end

/-- `mt_get_num_children`: the value of the call is dropped and the function
ends without a `return` statement, so its caller gets no defined value
(`none`). -/
def mt_get_num_children (g : Globals) (branch : Option mt_branch) : Outcome (Option Int) :=
  (mt_get_num_descendants g branch 0 1).bind fun _ g => .ret none g

/-! ## Creating the root -/

/-- `sizeof(mt_branch)`: eight fields of eight bytes. -/
def sizeof_mt_branch : Nat := 64

/-- The library function `calloc(nmemb, size)` (the allocation succeeds): the
number of bytes of the zero-filled block it returns. -/
def calloc (nmemb size : Nat) : Nat := nmemb * size

/-- The block that `mt_create_root` allocates for the new branch:
`calloc( sizeof *new_root, 0 )`. -/
def mt_create_root_block : Nat := calloc sizeof_mt_branch 0

/-! ## Well-formed trees, and what the traversals are to compute -/

/-- A child list is well formed when every cell holds a child (`item` is
not `NULL`) and the child list of every child is well formed; the list
itself ends in `NULL`. -/
def mt_list.well_formed : mt_list → Prop
  | .null => True
  | .node _ _ none => False
  | .node _ next (some c) => c.first_child.well_formed ∧ next.well_formed

/-- The number of branches below the cells of a child list: every child and
all its descendants. -/
def mt_list.count : mt_list → Nat
  | .null => 0
  | .node _ next none => next.count
  | .node _ next (some c) => 1 + c.first_child.count + next.count

/-- The largest of `m` and the ids of all branches below the cells of a
child list. -/
def mt_list.max_id : mt_list → Nat → Nat
  | .null, m => m
  | .node _ next none, m => next.max_id m
  | .node _ next (some c), m => next.max_id (c.first_child.max_id (max m c.id))


/-! ## Functions whose body is empty

Each of these has a result type and a body without a statement: the call does
nothing and ends without a `return`, so its caller gets no defined value
(`none`).  Where the function is meant to write to memory, the result also
carries that memory as the call leaves it. -/

/-- `mt_check_branches_identical`. -/
def mt_check_branches_identical (g : Globals) (_branch_a _branch_b : Option mt_branch) :
    Outcome (Option (Option mt_branch)) :=
  .ret none g

/-- `mt_create_path`; the result carries the tree behind `root`. -/
def mt_create_path (g : Globals) (root : Option mt_branch) (_path : Option CStr) :
    Outcome (Option (Option mt_branch) × Option mt_branch) :=
  .ret (none, root) g

/-- `mt_get_tree_file_size`. -/
def mt_get_tree_file_size (g : Globals) (_root : Option mt_branch) : Outcome (Option Nat) :=
  .ret none g

/-- `mt_write_tree_to_buffer`; the result carries the bytes of `out_buffer`. -/
def mt_write_tree_to_buffer (g : Globals) (_root : Option mt_branch) (out_buffer : List Nat)
    (_out_capacity : Nat) : Outcome (Option Int × List Nat) :=
  .ret (none, out_buffer) g

/-- `mt_load_tree_from_buffer`; the result carries the tree behind
`new_parent`. -/
def mt_load_tree_from_buffer (g : Globals) (new_parent : Option mt_branch)
    (_in_buffer : List Nat) (_buffer_length : Nat) :
    Outcome (Option (Option mt_branch) × Option mt_branch) :=
  .ret (none, new_parent) g

/-! ## Sample data -/

/-- Errors-are-flagged mode with the flag clear. -/
def flagged : Globals :=
  { MT_ERRORS_ARE_FATAL := 0, MT_ERROR_FLAG := 0, MT_CURRENT_NUM_BRANCHES := 0, MT_MAX_ID := 0 }

/-- The initial values of the process-wide variables (errors are fatal). -/
def initial : Globals :=
  { MT_ERRORS_ARE_FATAL := 1, MT_ERROR_FLAG := 0, MT_CURRENT_NUM_BRANCHES := 0, MT_MAX_ID := 0 }

/-- A branch without children, labelled `old`, of data type `int`. -/
def leaf_old : mt_branch :=
  { parent := 0, first_child := .null, last_child := 0, id := 0,
    label := some "old".toList, data_type := some "int".toList, data_size := 0, data := none }

/-- A branch labelled `a` with id 1 and no children. -/
def child_a : mt_branch :=
  { parent := 100, first_child := .null, last_child := 0, id := 1,
    label := some "a".toList, data_type := none, data_size := 0, data := none }

/-- A root labelled `root` whose only child is `child_a`. -/
def root_with_a : mt_branch :=
  { parent := 0, first_child := .node 0 .null (some child_a), last_child := 200, id := 0,
    label := some "root".toList, data_type := none, data_size := 0, data := none }

/-- Errors-are-flagged mode with an earlier error still recorded. -/
def flagged_pending : Globals :=
  { MT_ERRORS_ARE_FATAL := 0, MT_ERROR_FLAG := 1, MT_CURRENT_NUM_BRANCHES := 0, MT_MAX_ID := 0 }

/-- A root like `root_with_a` whose child list does not end in `NULL` but in
a cell whose `item` is `NULL`. -/
def root_with_a_sentinel : mt_branch :=
  { parent := 0, first_child := .node 0 (.node 0 .null none) (some child_a), last_child := 200,
    id := 0, label := some "root".toList, data_type := none, data_size := 0, data := none }

/-- A branch labelled `c` with id 3 and no children. -/
def branch_c : mt_branch :=
  { parent := 300, first_child := .null, last_child := 0, id := 3,
    label := some "c".toList, data_type := none, data_size := 0, data := none }

/-- A branch labelled `b` with id 2 whose only child is `branch_c`. -/
def branch_b : mt_branch :=
  { parent := 200, first_child := .node 0 .null (some branch_c), last_child := 400, id := 2,
    label := some "b".toList, data_type := none, data_size := 0, data := none }

/-- A branch labelled `a` with id 1 whose only child is `branch_b`. -/
def branch_a : mt_branch :=
  { parent := 100, first_child := .node 0 .null (some branch_b), last_child := 500, id := 1,
    label := some "a".toList, data_type := none, data_size := 0, data := none }

/-- A root that holds the chain of branches `a`, `b`, `c`. -/
def root_abc : mt_branch :=
  { parent := 0, first_child := .node 0 .null (some branch_a), last_child := 600, id := 0,
    label := some "root".toList, data_type := none, data_size := 0, data := none }


/-! ## Auxiliary facts -/

theorem cstr_of_nulFree (s : CStr) (h : NulFree s) : cstr s = s := by
  unfold cstr
  rw [List.takeWhile_eq_self_iff]
  intro c hc
  simpa using h c hc

theorem clear_flag_eq (g : Globals) (h : g.MT_ERROR_FLAG = 0) :
    { g with MT_ERROR_FLAG := 0 } = g := by
  cases g
  simp_all

theorem char_at_zero_ne_nul (s : CStr) (hne : s ≠ []) (h : NulFree s) : char_at s 0 ≠ NUL := by
  cases s with
  | nil => exact absurd rfl hne
  | cons c t => simpa [char_at] using h c (List.mem_cons_self c t)

/-- With the flag clear and a string whose first character is not NUL, the
label is replaced by a copy of the string, whatever characters it holds. -/
theorem mt_set_label_stores (g : Globals) (b : mt_branch) (s : CStr)
    (hflag : g.MT_ERROR_FLAG = 0) (h0 : char_at s 0 ≠ NUL) :
    mt_set_label g (some b) (some s)
      = .ret (some (cstr s), some { b with label := some (cstr s) }) g := by
  simp [mt_set_label, error_if, Outcome.bind, __mt_check_error_flag, h0, hflag,
    mt_check_label_valid_address, strdup, clear_flag_eq]

/-- With the flag clear, the data type is replaced by a copy of the string. -/
theorem mt_set_data_type_stores (g : Globals) (b : mt_branch) (s : CStr)
    (hflag : g.MT_ERROR_FLAG = 0) :
    mt_set_data_type g (some b) (some s)
      = .ret (some (cstr s), some { b with data_type := some (cstr s) }) g := by
  simp [mt_set_data_type, error_if, Outcome.bind, __mt_check_error_flag, hflag,
    mt_check_label_valid_address, strdup, clear_flag_eq]

theorem dropWhile_head_false {p : Char → Bool} :
    ∀ (s : List Char) (c : Char) (t : List Char), s.dropWhile p = c :: t → p c = false := by
  intro s
  induction s with
  | nil => intro c t h; simp at h
  | cons a r ih =>
    intro c t h
    rw [List.dropWhile_cons] at h
    split at h
    · exact ih c t h
    · rename_i hp
      simp only [List.cons.injEq] at h
      rw [← h.1]
      simpa using hp

/-- A token returned by `strtok` is not empty, and the saved position is
strictly further on than the start. -/
theorem strtok_some (s : CStr) (delim : List Char) (tok saved : CStr)
    (h : strtok s delim = some (tok, saved)) :
    strlen tok ≠ 0 ∧ saved.length < s.length := by
  unfold strtok at h
  have hlen : (s.dropWhile (fun c => c != NUL && delim.contains c)).length ≤ s.length :=
    (List.dropWhile_sublist _).length_le
  generalize hs1 : s.dropWhile (fun c => c != NUL && delim.contains c) = s1 at h hlen
  cases s1 with
  | nil => simp [char_at] at h
  | cons c t =>
    have hc := dropWhile_head_false s c t hs1
    by_cases hn : c = NUL
    · simp [char_at, hn] at h
    · have hd : c ∉ delim := by simpa [hn] using hc
      have hp : (c != NUL && !delim.contains c) = true := by simp [hn, hd]
      have hle : (t.dropWhile (fun c => c != NUL && !delim.contains c)).length ≤ t.length :=
        (List.dropWhile_sublist _).length_le
      simp only [char_at, List.getD_cons_zero, beq_iff_eq, hn, if_false, List.takeWhile_cons, hp,
        List.dropWhile_cons, if_true] at h
      have htok : strlen tok ≠ 0 := by
        split at h <;> simp only [Option.some.injEq, Prod.mk.injEq] at h <;>
          (rw [← h.1]; simp [strlen, cstr, List.takeWhile_cons, hn])
      refine ⟨htok, ?_⟩
      split at h <;> simp only [Option.some.injEq, Prod.mk.injEq] at h <;> rw [← h.2]
      · simp only [List.length_cons] at hlen ⊢; omega
      · simp only [List.length_cons, List.length_tail] at hlen ⊢; omega

/-- The loop body hands `current_branch` on for every non-empty token. -/
theorem mt_get_by_path_body_eq (g : Globals) (cur : Option mt_branch) (label : CStr)
    (h : strlen label ≠ 0) : mt_get_by_path_body g cur label = .ret cur g := by
  unfold mt_get_by_path_body
  simp only [h, if_false]
  split
  · split <;> rfl
  · rfl

/-- With a budget that exceeds the length of what is left of the path, the
loop returns the branch it started with, unless a call of `strtok` has to
store into a path that may not be written. -/
theorem mt_get_by_path_loop_cases :
    ∀ (fuel : Nat) (g : Globals) (w : Bool) (done : CStr) (cur : Option mt_branch) (s : CStr)
      (delim : List Char), s.length < fuel →
      (∃ buf, mt_get_by_path_loop fuel g w done cur s delim = .ret (cur, buf) g) ∨
      (w = false ∧ mt_get_by_path_loop fuel g w done cur s delim = .fault) := by
  intro fuel
  induction fuel with
  | zero => intro g w done cur s delim h; omega
  | succ n ih =>
    intro g w done cur s delim h
    rw [mt_get_by_path_loop]
    cases hst : strtok s delim with
    | none => exact Or.inl ⟨done ++ s, rfl⟩
    | some p =>
      obtain ⟨tok, saved⟩ := p
      obtain ⟨h1, h2⟩ := strtok_some s delim tok saved hst
      by_cases hw : (strtok_stores s delim && !w) = true
      · right
        simp only [hw, if_true]
        refine ⟨?_, trivial⟩
        cases w <;> simp_all
      · simp only [hw, if_false, mt_get_by_path_body_eq g cur tok h1, Outcome.bind]
        exact ih g w (done ++ strtok_passed s delim) cur saved ['/'] (by omega)

/-- For every path, `mt_get_by_path` either returns its argument `root`
(`NULL` for a `NULL` path), with the process-wide variables unchanged, or is
stopped by a store into a path that may not be written. -/
theorem mt_get_by_path_cases (g : Globals) (root : Option mt_branch) (path : Option Buffer) :
    (∃ found path1, mt_get_by_path g root path = .ret (found, path1) g) ∨
    ((∃ p, path = some p ∧ p.writable = false) ∧ mt_get_by_path g root path = .fault) := by
  cases path with
  | none => exact Or.inl ⟨none, none, rfl⟩
  | some p =>
    unfold mt_get_by_path
    rcases mt_get_by_path_loop_cases (p.chars.length + 1) g p.writable [] root p.chars [' ']
      (by omega) with ⟨buf, h⟩ | ⟨hw, h⟩
    · exact Or.inl ⟨root, some { p with chars := buf }, by simp only [h, Outcome.bind]⟩
    · exact Or.inr ⟨⟨p, rfl, hw⟩, by simp only [h, Outcome.bind]⟩

/-- On a path that may be written, `mt_get_by_path` returns `root`. -/
theorem mt_get_by_path_eq_root (g : Globals) (root : Option mt_branch) (p : CStr) :
    ∃ chars, mt_get_by_path g root (some ⟨p, true⟩) = .ret (root, some ⟨chars, true⟩) g := by
  unfold mt_get_by_path
  rcases mt_get_by_path_loop_cases (p.length + 1) g true [] root p [' '] (by omega) with
    ⟨buf, h⟩ | ⟨hw, _⟩
  · exact ⟨buf, by simp only [h, Outcome.bind]⟩
  · cases hw

/-! ## Setting labels and data types -/

/-- C1: for a branch that is not `NULL` and a valid label `s` (not empty, free
of space, slash and braces), with the error flag clear on entry,
`mt_set_label` returns a string that is not `NULL`, the branch's label is
afterwards exactly `s`, and nothing else changes. -/
theorem mt_set_label_valid (g : Globals) (b : mt_branch) (s : CStr)
    (hflag : g.MT_ERROR_FLAG = 0) (hnul : NulFree s) (hne : s ≠ [])
    (_hvalid : ∀ c ∈ s, c ≠ ' ' ∧ c ≠ '/' ∧ c ≠ '\x7b' ∧ c ≠ '\x7d') :
    mt_set_label g (some b) (some s) = .ret (some s, some { b with label := some s }) g := by
  have h := mt_set_label_stores g b s hflag (char_at_zero_ne_nul s hne hnul)
  rwa [cstr_of_nulFree s hnul] at h

/-- C1, at the label of the test program. -/
theorem mt_set_label_valid_witness :
    mt_set_label initial (some leaf_old) (some "last_first_level".toList)
      = .ret (some "last_first_level".toList,
          some { leaf_old with label := some "last_first_level".toList }) initial :=
  mt_set_label_valid initial leaf_old "last_first_level".toList rfl (by decide) (by decide)
    (by decide)

/-- C2: in errors-are-flagged mode the label `a b`, which holds a space and
which `mt_check_label_valid` answers 0 for, is stored all the same: the call
returns the new string and the prior label `old` is gone. -/
theorem mt_set_label_reserved_accepted :
    mt_check_label_valid "a b".toList = 0 ∧
    leaf_old.label = some "old".toList ∧
    mt_set_label flagged (some leaf_old) (some "a b".toList)
      = .ret (some "a b".toList, some { leaf_old with label := some "a b".toList }) flagged :=
  ⟨rfl, rfl, rfl⟩

/-- C3: setting the empty label on a branch that is not `NULL` does not
return `NULL`: the report of the error, `mt_error`, runs into the undefined
`vprintf` call before the flag is set, in either error mode, and the call
never returns to its caller. -/
theorem mt_set_label_empty_fault (g : Globals) (b : mt_branch) :
    mt_set_label g (some b) (some []) = .fault ∧
    mt_set_label g (some b) (some [NUL, 'x']) = .fault ∧
    mt_set_label flagged (some leaf_old) (some "".toList) = .fault :=
  ⟨rfl, rfl, rfl⟩

/-- C4: `mt_check_label_valid` answers 0 when the string holds a space, a
slash or a brace at any position, and 1 otherwise. -/
theorem mt_check_label_valid_spec (s : CStr) :
    ((∃ c ∈ cstr s, c = ' ' ∨ c = '/' ∨ c = '\x7b' ∨ c = '\x7d') → mt_check_label_valid s = 0) ∧
    ((¬ ∃ c ∈ cstr s, c = ' ' ∨ c = '/' ∨ c = '\x7b' ∨ c = '\x7d') → mt_check_label_valid s = 1) := by
  induction s with
  | nil => simp [cstr, mt_check_label_valid]
  | cons a r ih =>
    by_cases ha : a = NUL
    · subst ha
      simp [cstr, mt_check_label_valid]
    · by_cases hr : a = ' ' ∨ a = '/' ∨ a = '\x7b' ∨ a = '\x7d'
      · constructor
        · intro _
          simp [mt_check_label_valid, ha, hr]
        · intro h
          exact absurd ⟨a, by simp [cstr, List.takeWhile_cons, ha], hr⟩ h
      · have hc : cstr (a :: r) = a :: cstr r := by simp [cstr, List.takeWhile_cons, ha]
        rw [hc]
        constructor
        · rintro ⟨c, hmem, hres⟩
          rcases List.mem_cons.mp hmem with rfl | hmem
          · exact absurd hres hr
          · simpa [mt_check_label_valid, ha, hr] using ih.1 ⟨c, hmem, hres⟩
        · intro h
          have h2 : ¬ ∃ c ∈ cstr r, c = ' ' ∨ c = '/' ∨ c = '\x7b' ∨ c = '\x7d' := by
            rintro ⟨c, hmem, hres⟩
            exact h ⟨c, List.mem_cons_of_mem a hmem, hres⟩
          simpa [mt_check_label_valid, ha, hr] using ih.2 h2

/-- C5: for a branch that is not `NULL` and two strings (either may be empty),
with the error flag clear on entry, `mt_set_data_type` stores and returns the
first string, and a following call stores and returns the second. -/
theorem mt_set_data_type_last_write (g : Globals) (b : mt_branch) (s1 s2 : CStr)
    (hflag : g.MT_ERROR_FLAG = 0) (h1 : NulFree s1) (h2 : NulFree s2) :
    mt_set_data_type g (some b) (some s1)
      = .ret (some s1, some { b with data_type := some s1 }) g ∧
    mt_set_data_type g (some { b with data_type := some s1 }) (some s2)
      = .ret (some s2, some { b with data_type := some s2 }) g := by
  constructor
  · have h := mt_set_data_type_stores g b s1 hflag
    rwa [cstr_of_nulFree s1 h1] at h
  · have h := mt_set_data_type_stores g { b with data_type := some s1 } s2 hflag
    rwa [cstr_of_nulFree s2 h2] at h

/-- C5, at the two strings of the test program. -/
theorem mt_set_data_type_last_write_witness :
    mt_set_data_type initial (some leaf_old) (some "test".toList)
      = .ret (some "test".toList, some { leaf_old with data_type := some "test".toList }) initial ∧
    mt_set_data_type initial (some { leaf_old with data_type := some "test".toList })
        (some "changed".toList)
      = .ret (some "changed".toList,
          some { leaf_old with data_type := some "changed".toList }) initial :=
  mt_set_data_type_last_write initial leaf_old "test".toList "changed".toList rfl
    (by decide) (by decide)

/-- C6: in errors-are-flagged mode with the flag clear, neither setter
returns `NULL` for a `NULL` string: `mt_set_label` reports the error through
`mt_error`, whose `vprintf` call is undefined (and line 437 would go on to
read `new_label[0]`), and `mt_set_data_type` hands the `NULL` to `strdup`. -/
theorem setters_read_null_string :
    mt_set_label flagged (some leaf_old) none = .fault ∧
    mt_set_data_type flagged (some leaf_old) none = .fault :=
  ⟨rfl, rfl⟩

/-! ## Path lookup -/

/-- C7: on a root whose only child is labelled `a` and has id 1, the paths
`a` and `{1}`, writable or not, both give back the root, not the child that
the label or the id selects; the path is left as it was. -/
theorem mt_get_by_path_single_segment (g : Globals) (w : Bool) :
    first_child_with_label root_with_a "a".toList = some child_a ∧
    first_child_with_id root_with_a 1 = some child_a ∧
    mt_get_by_path g (some root_with_a) (some ⟨"a".toList, w⟩)
      = .ret (some root_with_a, some ⟨"a".toList, w⟩) g ∧
    mt_get_by_path g (some root_with_a) (some ⟨"\x7b1\x7d".toList, w⟩)
      = .ret (some root_with_a, some ⟨"\x7b1\x7d".toList, w⟩) g ∧
    root_with_a.id ≠ child_a.id :=
  ⟨rfl, rfl, rfl, rfl, by decide⟩

/-- C8: on a root without children the path `missing`, writable or not, which
matches no child, gives back the root, and `mt_check_path_exists` answers
1. -/
theorem mt_get_by_path_no_match (g : Globals) (w : Bool) :
    children leaf_old = [] ∧
    mt_get_by_path g (some leaf_old) (some ⟨"missing".toList, w⟩)
      = .ret (some leaf_old, some ⟨"missing".toList, w⟩) g ∧
    mt_check_path_exists g (some leaf_old) (some ⟨"missing".toList, w⟩)
      = .ret (1, some ⟨"missing".toList, w⟩) g :=
  ⟨rfl, rfl, rfl⟩

/-- C9: the paths `{0}` and `{abc}`, writable or not, give back the root,
not `NULL`. -/
theorem mt_get_by_path_malformed_id (g : Globals) (w : Bool) :
    mt_get_by_path g (some leaf_old) (some ⟨"\x7b0\x7d".toList, w⟩)
      = .ret (some leaf_old, some ⟨"\x7b0\x7d".toList, w⟩) g ∧
    mt_get_by_path g (some leaf_old) (some ⟨"\x7babc\x7d".toList, w⟩)
      = .ret (some leaf_old, some ⟨"\x7babc\x7d".toList, w⟩) g :=
  ⟨rfl, rfl⟩

/-- C10: the three paths `/a//b///c/`, `a/b/c` and `  a/b/c  ` are not
brought to one form.  The loop sees the single token `/a//b///c/` for the
first, the token `a/b/c` for the second, and the tokens `a/b/c` and a space
for the third; on a root that holds the chain `a`, `b`, `c` the first two
give back the root and not the branch `c`; the third, as a string literal,
stops the call at the store of a NUL over its first trailing space, and in
writable memory gives back the root and is left cut in two. -/
theorem mt_get_by_path_three_paths (g : Globals) :
    mt_get_by_path_tokens 11 "/a//b///c/".toList [' '] = ["/a//b///c/".toList] ∧
    mt_get_by_path_tokens 6 "a/b/c".toList [' '] = ["a/b/c".toList] ∧
    mt_get_by_path_tokens 10 "  a/b/c  ".toList [' '] = ["a/b/c".toList, " ".toList] ∧
    mt_get_by_path g (some root_abc) (some ⟨"/a//b///c/".toList, false⟩)
      = .ret (some root_abc, some ⟨"/a//b///c/".toList, false⟩) g ∧
    mt_get_by_path g (some root_abc) (some ⟨"a/b/c".toList, false⟩)
      = .ret (some root_abc, some ⟨"a/b/c".toList, false⟩) g ∧
    mt_get_by_path g (some root_abc) (some ⟨"  a/b/c  ".toList, false⟩) = .fault ∧
    mt_get_by_path g (some root_abc) (some ⟨"  a/b/c  ".toList, true⟩)
      = .ret (some root_abc, some ⟨"  a/b/c".toList ++ [NUL, ' '], true⟩) g ∧
    root_abc.id ≠ branch_c.id :=
  ⟨rfl, rfl, rfl, rfl, rfl, rfl, rfl, by decide⟩

/-! ## Traversals on well-formed trees -/

/-- On a well-formed child list the walk of `mt_get_num_descendants` always
ends in a read of `list_position->item` with `list_position == NULL`. -/
theorem mt_get_num_descendants_walk_fault (g : Globals) :
    (l : mt_list) → l.well_formed → ∀ (n : Nat) (d : Int),
      mt_get_num_descendants_walk g l n d = .fault
  | .null, _, n, d => by simp [mt_get_num_descendants_walk]
  | .node _ next none, h, _, _ => by simp [mt_list.well_formed] at h
  | .node _ next (some c), h, n, d => by
    simp only [mt_list.well_formed] at h
    rw [mt_get_num_descendants_walk]
    cases hd : new_depth d with
    | none => rfl
    | some d1 =>
      simp only
      rw [mt_get_num_descendants]
      by_cases h0 : d1 = 0
      · simp only [h0, if_true, Outcome.bind]
        exact mt_get_num_descendants_walk_fault g next h.2 _ _
      · simp only [h0, if_false]
        rw [mt_get_num_descendants_walk_fault g c.first_child h.1]
        rfl

/-- On a well-formed child list the walk of `mt_find_max_id` always ends in a
read of `list_position->item` with `list_position == NULL`. -/
theorem mt_find_max_id_walk_fault (g : Globals) :
    (l : mt_list) → l.well_formed → ∀ (m : Nat) (d : Int),
      mt_find_max_id_walk g l m d = .fault
  | .null, _, m, d => by simp [mt_find_max_id_walk]
  | .node _ next none, h, _, _ => by simp [mt_list.well_formed] at h
  | .node _ next (some c), h, m, d => by
    simp only [mt_list.well_formed] at h
    rw [mt_find_max_id_walk]
    cases hd : new_depth d with
    | none => rfl
    | some d1 =>
      simp only
      rw [mt_find_max_id]
      by_cases h0 : d1 = 0
      · simp only [h0, if_true, Outcome.bind]
        exact mt_find_max_id_walk_fault g next h.2 _ _
      · simp only [h0, if_false]
        rw [mt_find_max_id_walk_fault g c.first_child h.1]
        rfl

/-- On every branch of a well-formed tree and for every depth limit other
than 0, `mt_get_num_descendants` does not return: it reads through `NULL`. -/
theorem mt_get_num_descendants_fault (g : Globals) (b : mt_branch) (n : Nat) (d : Int)
    (hwf : b.first_child.well_formed) (hd : d ≠ 0) :
    mt_get_num_descendants g (some b) n d = .fault := by
  rw [mt_get_num_descendants]
  simp only [hd, if_false]
  exact mt_get_num_descendants_walk_fault g b.first_child hwf n d

/-- On every branch of a well-formed tree and for every depth limit other
than 0, `mt_find_max_id` does not return: it reads through `NULL`. -/
theorem mt_find_max_id_fault (g : Globals) (b : mt_branch) (m : Nat) (d : Int)
    (hwf : b.first_child.well_formed) (hd : d ≠ 0) :
    mt_find_max_id g (some b) m d = .fault := by
  rw [mt_find_max_id]
  simp only [hd, if_false]
  exact mt_find_max_id_walk_fault g b.first_child hwf _ d

/-! ## Path existence and lookups -/

/-- C11: for every root and every path, `NULL` included: when
`mt_get_by_path` returns a pointer `found`, `mt_check_path_exists` returns 1
if `found` is not `NULL` and 0 if it is, and it returns only then (where the
lookup is stopped, at the store into a path that may not be written, so is
the check); for a `NULL` path and for every path that may be written both
return; for a `NULL` path the check returns 0. -/
theorem mt_check_path_exists_spec (g : Globals) (root : Option mt_branch)
    (path : Option Buffer) :
    ((∃ found path1, mt_get_by_path g root path = .ret (found, path1) g ∧
        mt_check_path_exists g root path = .ret (if found.isSome then 1 else 0, path1) g) ∨
      (mt_get_by_path g root path = .fault ∧ mt_check_path_exists g root path = .fault)) ∧
    ((∀ p, path = some p → p.writable = true) →
      ∃ found path1, mt_get_by_path g root path = .ret (found, path1) g ∧
        mt_check_path_exists g root path = .ret (if found.isSome then 1 else 0, path1) g) ∧
    mt_check_path_exists g root none = .ret (0, none) g := by
  have hret : ∀ found path1, mt_get_by_path g root path = .ret (found, path1) g →
      mt_check_path_exists g root path = .ret (if found.isSome then 1 else 0, path1) g := by
    intro found path1 h
    simp only [mt_check_path_exists, h, Outcome.bind]
    split <;> rfl
  refine ⟨?_, ?_, rfl⟩
  · rcases mt_get_by_path_cases g root path with ⟨found, path1, h⟩ | ⟨_, h⟩
    · exact Or.inl ⟨found, path1, h, hret found path1 h⟩
    · exact Or.inr ⟨h, by simp only [mt_check_path_exists, h, Outcome.bind]⟩
  · intro hw
    rcases mt_get_by_path_cases g root path with ⟨found, path1, h⟩ | ⟨⟨p, hp, hpw⟩, _⟩
    · exact ⟨found, path1, h, hret found path1 h⟩
    · rw [hw p hp] at hpw
      cases hpw

/-- C12: on the string literals `  a/b/c  ` and `a b` neither lookup returns
to its caller: the first call of `strtok` stores a NUL over the space that
follows the token, into memory that may not be written. -/
theorem lookups_on_literal (g : Globals) (root : Option mt_branch) :
    strtok_stores "  a/b/c  ".toList [' '] = true ∧
    mt_get_by_path g root (some ⟨"  a/b/c  ".toList, false⟩) = .fault ∧
    mt_check_path_exists g root (some ⟨"  a/b/c  ".toList, false⟩) = .fault ∧
    mt_get_by_path g root (some ⟨"a b".toList, false⟩) = .fault ∧
    mt_check_path_exists g root (some ⟨"a b".toList, false⟩) = .fault :=
  ⟨rfl, rfl, rfl, rfl, rfl⟩

/-! ## Counting descendants -/

/-- C13: on a branch without children (0 descendants), and on a root with one
child (1 descendant), `mt_get_num_descendants(branch, 0, -1)` does not return
a count: it reads `list_position->item` with `list_position == NULL`. -/
theorem mt_get_num_descendants_full_depth (g : Globals) :
    children leaf_old = [] ∧ leaf_old.first_child.count = 0 ∧
    mt_get_num_descendants g (some leaf_old) 0 (-1) = .fault ∧
    children root_with_a = [child_a] ∧ root_with_a.first_child.count = 1 ∧
    mt_get_num_descendants g (some root_with_a) 0 (-1) = .fault :=
  ⟨rfl, rfl, rfl, rfl, rfl, rfl⟩

/-- C14: `mt_get_num_children` reads through `NULL` on a branch without
children and on a root with one child; where the inner call does return (a
child list closed by a cell with a `NULL` item) its value, 1, is dropped and
no value is returned. -/
theorem mt_get_num_children_no_value (g : Globals) :
    mt_get_num_children g (some leaf_old) = .fault ∧
    mt_get_num_children g (some root_with_a) = .fault ∧
    mt_get_num_descendants g (some root_with_a_sentinel) 0 1 = .ret 1 g ∧
    mt_get_num_children g (some root_with_a_sentinel) = .ret none g :=
  ⟨rfl, rfl, rfl, rfl⟩

/-- C15, as stated, fails: with `max_depth = 0` and the accumulator 2^31,
`mt_get_num_descendants` returns -2^31, the accumulator converted to `int`. -/
theorem mt_get_num_descendants_depth_zero_large :
    mt_get_num_descendants flagged (some leaf_old) 2147483648 0 = .ret (-2147483648) flagged ∧
    ((-2147483648 : Int) ≠ 2147483648) :=
  ⟨rfl, by decide⟩

/-- C15, amended: with `max_depth = 0`, for every branch pointer (`NULL`
included), `mt_find_max_id` returns its accumulator for every value of it, and
`mt_get_num_descendants` returns its accumulator whenever that fits in an
`int`; the process-wide variables are unchanged. -/
theorem traversals_depth_zero (g : Globals) (branch : Option mt_branch) (n m : Nat)
    (hn : (n : Int) ≤ INT_MAX) :
    mt_get_num_descendants g branch n 0 = .ret n g ∧
    mt_find_max_id g branch m 0 = .ret m g := by
  constructor
  · rw [mt_get_num_descendants.eq_def]
    simp only [if_true]
    have : to_int n = n := by
      unfold to_int
      unfold INT_MAX at hn
      omega
    rw [this]
  · rw [mt_find_max_id.eq_def]
    simp

/-- C15, amended, at the accumulators 7 and 2^40 on a `NULL` branch. -/
theorem traversals_depth_zero_witness :
    mt_get_num_descendants initial none 7 0 = .ret 7 initial ∧
    mt_find_max_id initial none 1099511627776 0 = .ret 1099511627776 initial :=
  traversals_depth_zero initial none 7 1099511627776 (by decide)

/-! ## The largest id -/

/-- C16: on a branch without children, and on a root with one child (largest
id 1), `mt_find_max_id(root, 0, -1)` does not return a maximum: it reads
`list_position->item` with `list_position == NULL`. -/
theorem mt_find_max_id_full_depth (g : Globals) :
    mt_find_max_id g (some leaf_old) 0 (-1) = .fault ∧
    root_with_a.first_child.max_id (max 0 root_with_a.id) = 1 ∧
    mt_find_max_id g (some root_with_a) 0 (-1) = .fault :=
  ⟨rfl, rfl, rfl⟩

/-- C17: on a root with one child, and on a root without children,
`mt_update_max_id` does not return, so `MT_MAX_ID` is never assigned. -/
theorem mt_update_max_id_no_return (g : Globals) :
    mt_update_max_id g (some root_with_a) = .fault ∧
    mt_update_max_id g (some leaf_old) = .fault :=
  ⟨rfl, rfl⟩

/-! ## Parent and root -/

/-- C18, as stated, fails: with an earlier error still recorded,
`mt_get_parent` returns `NULL` for a branch whose parent is not `NULL` and for
which `mt_check_is_root` answers 0. -/
theorem mt_get_parent_pending_error :
    child_a.parent = 100 ∧
    mt_get_parent flagged_pending (some child_a) = .ret 0 flagged ∧
    mt_check_is_root flagged_pending (some child_a) = .ret 0 flagged_pending :=
  ⟨rfl, rfl, rfl⟩

/-- C18, amended: with the error flag clear on entry, `mt_get_parent` returns
the parent of a branch that is not `NULL`, and that result is `NULL` exactly
when `mt_check_is_root` returns 1 (otherwise `mt_check_is_root` returns 0). -/
theorem mt_get_parent_spec (g : Globals) (b : mt_branch) (hflag : g.MT_ERROR_FLAG = 0) :
    mt_get_parent g (some b) = .ret b.parent g ∧
    (b.parent = 0 → mt_check_is_root g (some b) = .ret 1 g) ∧
    (b.parent ≠ 0 → mt_check_is_root g (some b) = .ret 0 g) := by
  refine ⟨?_, ?_, ?_⟩
  · simp [mt_get_parent, error_if, Outcome.bind, __mt_check_error_flag, hflag, clear_flag_eq]
  · intro h
    simp [mt_check_is_root, h]
  · intro h
    simp [mt_check_is_root, h]

/-- C18, amended, at a child whose parent pointer is 100. -/
theorem mt_get_parent_spec_witness :
    mt_get_parent initial (some child_a) = .ret 100 initial ∧
    (child_a.parent = 0 → mt_check_is_root initial (some child_a) = .ret 1 initial) ∧
    (child_a.parent ≠ 0 → mt_check_is_root initial (some child_a) = .ret 0 initial) :=
  mt_get_parent_spec initial child_a rfl

/-- C19: the block that `mt_create_root` allocates for the new branch has 0
bytes, less than the 64 bytes of a branch, so the stores of `parent`,
`first_child`, `id`, `data_size` and `data` all fall outside it. -/
theorem mt_create_root_block_empty :
    mt_create_root_block = 0 ∧ mt_create_root_block < sizeof_mt_branch :=
  ⟨rfl, by decide⟩

/-! ## The error flag -/

/-- C20: `__mt_check_error_flag` returns the value `MT_ERROR_FLAG` had and
leaves it 0, changing no other variable, so a second call right after it
returns 0. -/
theorem check_error_flag_single_use (g : Globals) :
    __mt_check_error_flag g = .ret g.MT_ERROR_FLAG { g with MT_ERROR_FLAG := 0 } ∧
    ({ g with MT_ERROR_FLAG := 0 } : Globals).MT_ERROR_FLAG = 0 ∧
    ({ g with MT_ERROR_FLAG := 0 } : Globals).MT_ERRORS_ARE_FATAL = g.MT_ERRORS_ARE_FATAL ∧
    __mt_check_error_flag { g with MT_ERROR_FLAG := 0 }
      = .ret 0 { g with MT_ERROR_FLAG := 0 } :=
  ⟨rfl, rfl, rfl, rfl⟩


/-! ## The error policy -/

/-- C21: in errors-are-flagged mode no failing operation returns with
`MT_ERROR_FLAG` equal to 1: `mt_error` runs into the undefined `vprintf` call
before it writes the flag, so `mt_set_label` with the empty label and
`mt_get_parent(NULL)` never return. -/
theorem failed_operation_fault :
    mt_error flagged = .fault ∧
    mt_set_label flagged (some child_a) (some []) = .fault ∧
    mt_get_parent flagged none = .fault :=
  ⟨rfl, rfl, rfl⟩

/-- C22: `mt_get_parent(NULL)` neither reaches `exit` when errors are fatal
(the initial mode) nor returns `NULL` when they are flagged: in every mode it
ends in the undefined `vprintf` call of `mt_error`. -/
theorem mt_get_parent_null_fault (g : Globals) :
    initial.MT_ERRORS_ARE_FATAL = 1 ∧
    mt_get_parent initial none = .fault ∧
    mt_get_parent flagged none = .fault ∧
    mt_get_parent g none = .fault :=
  ⟨rfl, rfl, rfl, rfl⟩

/-- C28: in errors-are-flagged mode with `MT_ERROR_FLAG` already 1 on entry,
`mt_set_label`, `mt_set_data_type` and `mt_get_parent`, called on a branch that
is not `NULL` with a valid string, return `NULL`, leave the branch as it was
and return with `MT_ERROR_FLAG` equal to 0. -/
theorem pending_error_rejects_valid_call (g : Globals) (b : mt_branch) (s : CStr)
    (hmode : g.MT_ERRORS_ARE_FATAL = 0) (hflag : g.MT_ERROR_FLAG = 1)
    (hnul : NulFree s) (hne : s ≠ []) :
    mt_set_label g (some b) (some s) = .ret (none, some b) { g with MT_ERROR_FLAG := 0 } ∧
    mt_set_data_type g (some b) (some s) = .ret (none, some b) { g with MT_ERROR_FLAG := 0 } ∧
    mt_get_parent g (some b) = .ret 0 { g with MT_ERROR_FLAG := 0 } := by
  have h0 := char_at_zero_ne_nul s hne hnul
  refine ⟨?_, ?_, ?_⟩
  · simp [mt_set_label, error_if, Outcome.bind, __mt_check_error_flag, mt_error, hmode, hflag,
      mt_check_label_valid_address, h0]
  · simp [mt_set_data_type, error_if, Outcome.bind, __mt_check_error_flag, mt_error, hmode,
      hflag, mt_check_label_valid_address]
  · simp [mt_get_parent, error_if, Outcome.bind, __mt_check_error_flag, mt_error, hmode, hflag]

/-- C28, at a branch labelled `a` and the string `test`. -/
theorem pending_error_rejects_valid_call_witness :
    mt_set_label flagged_pending (some child_a) (some "test".toList)
      = .ret (none, some child_a) { flagged_pending with MT_ERROR_FLAG := 0 } ∧
    mt_set_data_type flagged_pending (some child_a) (some "test".toList)
      = .ret (none, some child_a) { flagged_pending with MT_ERROR_FLAG := 0 } ∧
    mt_get_parent flagged_pending (some child_a)
      = .ret 0 { flagged_pending with MT_ERROR_FLAG := 0 } :=
  pending_error_rejects_valid_call flagged_pending child_a "test".toList rfl rfl
    (by decide) (by decide)

/-! ## Serialization and path creation -/

/-- C23: for every tree and buffer, `mt_get_tree_file_size` returns no value,
`mt_write_tree_to_buffer` writes nothing and returns no value,
`mt_load_tree_from_buffer` attaches nothing to the parent and returns no
value, and `mt_check_branches_identical` returns no value. -/
theorem serialization_does_nothing (g : Globals) (tree parent b : Option mt_branch)
    (buffer : List Nat) (size : Nat) :
    mt_get_tree_file_size g tree = .ret none g ∧
    mt_write_tree_to_buffer g tree buffer size = .ret (none, buffer) g ∧
    mt_load_tree_from_buffer g parent buffer size = .ret (none, parent) g ∧
    mt_check_branches_identical g tree b = .ret none g :=
  ⟨rfl, rfl, rfl, rfl⟩

/-- C24: on a root without children and the path `a`, `mt_create_path`
creates no branch and returns no value, the first time as the second. -/
theorem mt_create_path_does_nothing (g : Globals) :
    children leaf_old = [] ∧
    mt_create_path g (some leaf_old) (some "a".toList) = .ret (none, some leaf_old) g ∧
    ((mt_create_path g (some leaf_old) (some "a".toList)).bind fun r g =>
        mt_create_path g r.2 (some "a".toList)) = .ret (none, some leaf_old) g :=
  ⟨rfl, rfl, rfl⟩

/-! ## Depth-limited traversals -/

/-- C25: with the depth limits 1 and 2, `mt_get_num_descendants` returns no
count on a branch without children nor on a root with one child: it reads
`list_position->item` with `list_position == NULL`. -/
theorem mt_get_num_descendants_limited (g : Globals) :
    children leaf_old = [] ∧
    mt_get_num_descendants g (some leaf_old) 0 1 = .fault ∧
    children root_with_a = [child_a] ∧
    mt_get_num_descendants g (some root_with_a) 0 1 = .fault ∧
    mt_get_num_descendants g (some root_with_a) 5 2 = .fault :=
  ⟨rfl, rfl, rfl, rfl, rfl⟩

/-- C26: with the depth limits 1 and 2, `mt_find_max_id` returns no maximum
on a branch without children (id 1) nor on a root with one child: it reads
`list_position->item` with `list_position == NULL`. -/
theorem mt_find_max_id_limited (g : Globals) :
    child_a.id = 1 ∧ children child_a = [] ∧
    mt_find_max_id g (some child_a) 0 1 = .fault ∧
    mt_find_max_id g (some root_with_a) 0 1 = .fault ∧
    mt_find_max_id g (some root_with_a) 0 2 = .fault :=
  ⟨rfl, rfl, rfl, rfl, rfl⟩

/-- C27: on every branch of a well-formed tree and for every depth limit
other than 0, neither traversal runs to completion: both end in undefined
behaviour, the read of `list_position->item` with `list_position == NULL`
(or, before it, the overflow of `max_depth - 1`). -/
theorem traversals_read_null (g : Globals) (b : mt_branch) (n m : Nat) (d : Int)
    (hwf : b.first_child.well_formed) (hd : d ≠ 0) :
    mt_get_num_descendants g (some b) n d = .fault ∧
    mt_find_max_id g (some b) m d = .fault :=
  ⟨mt_get_num_descendants_fault g b n d hwf hd, mt_find_max_id_fault g b m d hwf hd⟩

/-- C27, at a root with one child and full depth. -/
theorem traversals_read_null_witness :
    mt_get_num_descendants initial (some root_with_a) 0 (-1) = .fault ∧
    mt_find_max_id initial (some root_with_a) 0 (-1) = .fault :=
  traversals_read_null initial root_with_a 0 0 (-1)
    (by simp [root_with_a, child_a, mt_list.well_formed]) (by decide)

/-- C30: with the negative depth limits -2 and -7, as with -1, neither
traversal returns on a branch without children nor on a root with one child;
with the smallest `int` the subtraction `max_depth - 1` overflows first. -/
theorem traversals_negative_depth (g : Globals) :
    mt_find_max_id g (some leaf_old) 0 (-2) = .fault ∧
    mt_get_num_descendants g (some leaf_old) 0 (-2) = .fault ∧
    mt_find_max_id g (some root_with_a) 0 (-7) = .fault ∧
    mt_get_num_descendants g (some root_with_a) 0 (-7) = .fault ∧
    new_depth INT_MIN = none :=
  ⟨rfl, rfl, rfl, rfl, by decide⟩

/-! ## Frame of the setters -/

/-- A call of `mt_set_label` that returns a string has replaced the label and
cleared the flag, nothing else. -/
theorem mt_set_label_success (g g1 : Globals) (b b1 : mt_branch) (s r : CStr)
    (h : mt_set_label g (some b) (some s) = .ret (some r, some b1) g1) :
    b1 = { b with label := some (strdup s) } ∧ g1 = { g with MT_ERROR_FLAG := 0 } := by
  by_cases h0 : char_at s 0 = NUL <;> by_cases hf : g.MT_ERROR_FLAG = 0 <;>
    simp [mt_set_label, error_if, Outcome.bind, __mt_check_error_flag, mt_error,
      mt_error_vprintf, mt_check_label_valid_address, h0, hf] at h
  exact ⟨h.1.2.symm, h.2.symm⟩

/-- A call of `mt_set_data_type` that returns a string has replaced the data
type and cleared the flag, nothing else. -/
theorem mt_set_data_type_success (g g1 : Globals) (b b1 : mt_branch) (s r : CStr)
    (h : mt_set_data_type g (some b) (some s) = .ret (some r, some b1) g1) :
    b1 = { b with data_type := some (strdup s) } ∧ g1 = { g with MT_ERROR_FLAG := 0 } := by
  by_cases hf : g.MT_ERROR_FLAG = 0 <;>
    simp [mt_set_data_type, error_if, Outcome.bind, __mt_check_error_flag,
      mt_check_label_valid_address, hf] at h
  exact ⟨h.1.2.symm, h.2.symm⟩

/-- C29: a call of `mt_set_label` that returns a string leaves the branch's
id, parent, child list, data type, data and data size, and the counters
`MT_MAX_ID` and `MT_CURRENT_NUM_BRANCHES`, as they were; a call of
`mt_set_data_type` that returns a string does the same with the label in
place of the data type. -/
theorem setters_frame (g g1 g2 : Globals) (b b1 b2 : mt_branch) (s t r1 r2 : CStr)
    (h1 : mt_set_label g (some b) (some s) = .ret (some r1, some b1) g1)
    (h2 : mt_set_data_type g (some b) (some t) = .ret (some r2, some b2) g2) :
    (b1.id = b.id ∧ b1.parent = b.parent ∧ b1.first_child = b.first_child ∧
      b1.last_child = b.last_child ∧ b1.data_type = b.data_type ∧ b1.data = b.data ∧
      b1.data_size = b.data_size ∧ g1.MT_MAX_ID = g.MT_MAX_ID ∧
      g1.MT_CURRENT_NUM_BRANCHES = g.MT_CURRENT_NUM_BRANCHES) ∧
    (b2.id = b.id ∧ b2.parent = b.parent ∧ b2.first_child = b.first_child ∧
      b2.last_child = b.last_child ∧ b2.label = b.label ∧ b2.data = b.data ∧
      b2.data_size = b.data_size ∧ g2.MT_MAX_ID = g.MT_MAX_ID ∧
      g2.MT_CURRENT_NUM_BRANCHES = g.MT_CURRENT_NUM_BRANCHES) := by
  have hl := mt_set_label_success g g1 b b1 s r1 h1
  have hd := mt_set_data_type_success g g2 b b2 t r2 h2
  rw [hl.1, hl.2, hd.1, hd.2]
  exact ⟨⟨rfl, rfl, rfl, rfl, rfl, rfl, rfl, rfl, rfl⟩, ⟨rfl, rfl, rfl, rfl, rfl, rfl, rfl, rfl, rfl⟩⟩

/-- C29, at a branch labelled `old` of data type `int`: both calls succeed,
the new label leaves the data type `int` and the new data type leaves the
label `old`. -/
theorem setters_frame_witness :
    mt_set_label flagged (some leaf_old) (some "new".toList)
      = .ret (some "new".toList, some { leaf_old with label := some "new".toList }) flagged ∧
    mt_set_data_type flagged (some leaf_old) (some "char".toList)
      = .ret (some "char".toList, some { leaf_old with data_type := some "char".toList })
          flagged ∧
    ({ leaf_old with label := some "new".toList } : mt_branch).data_type = leaf_old.data_type ∧
    ({ leaf_old with data_type := some "char".toList } : mt_branch).label = leaf_old.label :=
  ⟨rfl, rfl,
    (setters_frame flagged flagged flagged leaf_old { leaf_old with label := some "new".toList }
      { leaf_old with data_type := some "char".toList } "new".toList "char".toList
      "new".toList "char".toList rfl rfl).1.2.2.2.2.1,
    (setters_frame flagged flagged flagged leaf_old { leaf_old with label := some "new".toList }
      { leaf_old with data_type := some "char".toList } "new".toList "char".toList
      "new".toList "char".toList rfl rfl).2.2.2.2.2.1⟩


end Megatree
